import Mathlib

/-!
# Verification of the Contact_Book contact CRUD core

Shallow embedding of `src/repository/contacts.py` and the contact routes of
`src/routes/contacts.py`. The database is modelled as a list of rows in
insertion order together with the next autoincrement id; each SQLAlchemy
`select(...).filter...` becomes a `List.filter` over the rows,
`scalar_one_or_none` becomes `scalarOneOrNone` (erroring, as SQLAlchemy's
`MultipleResultsFound`, when more than one row matches), and
`datetime.today() + timedelta(days=7)` becomes Gregorian-calendar `addDays`.
-/

/-- A calendar date, as carried by `datetime` / the `bd_date` column. -/
structure Date where
  year : Nat
  month : Nat
  day : Nat
deriving DecidableEq

/-- A row of the `contacts` table (`src/database/models.py` `Contact`):
id is store-generated, `user` is modelled by its owner id. -/
structure Contact where
  id : Nat
  name : String
  surname : String
  email : String
  number : String
  bd_date : Date
  additional_data : Option String
  owner : Nat
deriving DecidableEq

/-- The request body `ContactSchema`: the six user-supplied fields. -/
structure ContactSchema where
  name : String
  surname : String
  email : String
  number : String
  bd_date : Date
  additional_data : Option String
deriving DecidableEq

/-- The database state: rows in insertion order plus the next
autoincrement primary key. -/
structure Store where
  contacts : List Contact
  nextId : Nat
deriving DecidableEq

/-- SQLAlchemy `Result.scalar_one_or_none()`: `none` on no row, the row when
exactly one matches, and a `MultipleResultsFound` error otherwise. -/
def scalarOneOrNone (l : List Contact) : Except String (Option Contact) :=
  match l with
  | [] => Except.ok none
  | [c] => Except.ok (some c)
  | _ => Except.error "Multiple rows were found when exactly one or none was required"

/-- `get_contacts(limit, offset, user, db)`:
`select(Contact).filter_by(user=user).offset(offset).limit(limit)` —
the owner's rows in insertion order, skipping `offset`, capped at `limit`. -/
def get_contacts (limit offset : Nat) (u : Nat) (db : Store) : List Contact :=
  ((db.contacts.filter (fun c => c.owner == u)).drop offset).take limit

/-- `get_contact(contact_id, user, db)`:
`select(Contact).filter_by(id=contact_id, user=user)` then
`scalar_one_or_none()`. -/
def get_contact (cid : Nat) (u : Nat) (db : Store) : Except String (Option Contact) :=
  scalarOneOrNone (db.contacts.filter (fun c => c.id == cid && c.owner == u))

/-- `get_existing_contact(body, user, db)`:
`select(Contact).filter_by(email=body.email, number=body.number, user=user)`
then `scalar_one_or_none()`. -/
def get_existing_contact (body : ContactSchema) (u : Nat) (db : Store) :
    Except String (Option Contact) :=
  scalarOneOrNone (db.contacts.filter
    (fun c => c.email == body.email && c.number == body.number && c.owner == u))

/-- `create_contact(body, user, db)`: builds the row from the body's fields
and the user, inserts it (autoincrement id assigned at commit), and returns
the refreshed row. -/
def create_contact (body : ContactSchema) (u : Nat) (db : Store) : Contact × Store :=
  let c : Contact :=
    { id := db.nextId, name := body.name, surname := body.surname,
      email := body.email, number := body.number, bd_date := body.bd_date,
      additional_data := body.additional_data, owner := u }
  (c, { contacts := db.contacts ++ [c], nextId := db.nextId + 1 })

/-- The field overwrite performed inside `update_contact`: all six mutable
fields are assigned from the body; id and owner are untouched. -/
def applyFields (body : ContactSchema) (c : Contact) : Contact :=
  { c with
    name := body.name, surname := body.surname, email := body.email,
    number := body.number, bd_date := body.bd_date,
    additional_data := body.additional_data }

/-- `update_contact(contact_id, body, user, db)`: looks the row up by
`filter_by(id=contact_id, user=user)` + `scalar_one_or_none()`; if found,
overwrites the six mutable fields in place and commits, otherwise returns
`None` leaving the store untouched. -/
def update_contact (cid : Nat) (body : ContactSchema) (u : Nat) (db : Store) :
    Except String (Option Contact × Store) :=
  match scalarOneOrNone (db.contacts.filter (fun c => c.id == cid && c.owner == u)) with
  | Except.error e => Except.error e
  | Except.ok none => Except.ok (none, db)
  | Except.ok (some c) =>
      let c2 := applyFields body c
      Except.ok (some c2,
        { db with contacts :=
            db.contacts.map (fun x => if x.id == cid && x.owner == u then c2 else x) })

/-- ASCII lower-casing of one character, as done by SQL `lower` /
Python `str.lower` on ASCII text. -/
def charLower (ch : Char) : Char :=
  if 65 ≤ ch.toNat ∧ ch.toNat ≤ 90 then Char.ofNat (ch.toNat + 32) else ch

/-- Lower-casing of a string: SQL `func.lower` / Python `str.lower`. -/
def strLower (s : String) : String := String.mk (s.data.map charLower)

/-- `get_by_field(contact_value, user, db)`: owner-scoped select with
`lower(name) == lower(value) OR lower(surname) == lower(value) OR
email == value` — email compared case-sensitively. -/
def get_by_field (v : String) (u : Nat) (db : Store) : List Contact :=
  db.contacts.filter (fun c => c.owner == u &&
    (strLower c.name == strLower v || strLower c.surname == strLower v
      || c.email == v))

/-- Gregorian leap year, as implemented by Python's `datetime`. -/
def isLeap (y : Nat) : Bool := (y % 4 == 0 && y % 100 != 0) || y % 400 == 0

/-- Length of a Gregorian month, as used by `datetime` arithmetic. -/
def daysInMonth (y m : Nat) : Nat :=
  if m == 2 then (if isLeap y then 29 else 28)
  else if m == 4 || m == 6 || m == 9 || m == 11 then 30
  else 31

/-- Successor date in the Gregorian calendar. -/
def nextDay (d : Date) : Date :=
  if d.day < daysInMonth d.year d.month then { d with day := d.day + 1 }
  else if d.month < 12 then { year := d.year, month := d.month + 1, day := 1 }
  else { year := d.year + 1, month := 1, day := 1 }

/-- `d + timedelta(days=n)`. -/
def addDays (d : Date) : Nat → Date
  | 0 => d
  | n + 1 => nextDay (addDays d n)

/-- SQL `x BETWEEN lo AND hi` (inclusive; empty when `hi < lo`). -/
def sqlBetween (x lo hi : Nat) : Bool := decide (lo ≤ x ∧ x ≤ hi)

/-- `birthday_week_contacts(user, db)` with `datetime.today()` made an
explicit parameter: owner-scoped select with
`extract('month', bd_date) BETWEEN today.month AND next_week.month` and
`extract('day', bd_date) BETWEEN today.day AND next_week.day`,
where `next_week = today + timedelta(days=7)`. -/
def birthday_week_contacts (today : Date) (u : Nat) (db : Store) : List Contact :=
  let nextWeek := addDays today 7
  db.contacts.filter (fun c => c.owner == u
    && sqlBetween c.bd_date.month today.month nextWeek.month
    && sqlBetween c.bd_date.day today.day nextWeek.day)

/-- Outcome of a route handler: a serialized entity, an `HTTPException`
with its status code and detail, or a store-level error propagating out of
the repository (surfaced as a 5xx by the framework). -/
inductive RouteResult where
  | ok : Contact → RouteResult
  | httpErr : Nat → String → RouteResult
  | storeErr : String → RouteResult
deriving DecidableEq

/-- POST `/contacts/` (`create_contact` route): pre-checks the
(email, number, owner) soft-uniqueness key via `get_existing_contact`;
a found duplicate raises 400, otherwise the row is inserted (201). The
returned store is the state after the request. -/
def routeCreateContact (body : ContactSchema) (u : Nat) (db : Store) :
    RouteResult × Store :=
  match get_existing_contact body u db with
  | Except.error e => (RouteResult.storeErr e, db)
  | Except.ok (some _) =>
      (RouteResult.httpErr 400 "Contact with this number or email already exists", db)
  | Except.ok none =>
      let r := create_contact body u db
      (RouteResult.ok r.1, r.2)

/-- PUT `/contacts/{contact_id}` (`update_contact` route): a `None` from the
repository becomes a 404 NOT FOUND. -/
def routeUpdateContact (cid : Nat) (body : ContactSchema) (u : Nat) (db : Store) :
    RouteResult × Store :=
  match update_contact cid body u db with
  | Except.error e => (RouteResult.storeErr e, db)
  | Except.ok (none, db2) => (RouteResult.httpErr 404 "NOT FOUND", db2)
  | Except.ok (some c, db2) => (RouteResult.ok c, db2)

/-- A well-formed date as produced by `datetime`. -/
def ValidDate (d : Date) : Prop :=
  1 ≤ d.month ∧ d.month ≤ 12 ∧ 1 ≤ d.day ∧ d.day ≤ daysInMonth d.year d.month

/-! ## Sample data and decidability instances -/

/-- A sample contact owned by user 1. -/
def annC : Contact :=
  { id := 1, name := "ann", surname := "lee", email := "a@x.com",
    number := "111", bd_date := { year := 1990, month := 5, day := 10 },
    additional_data := none, owner := 1 }

/-- A sample one-row store whose next id is 2. -/
def db1 : Store := { contacts := [annC], nextId := 2 }

/-- A sample request body. -/
def bodyB : ContactSchema :=
  { name := "bob", surname := "roe", email := "b@x.com", number := "222",
    bd_date := { year := 1985, month := 7, day := 1 }, additional_data := none }

/-- A body carrying the same (email, number) pair as `annC`. -/
def bodyA : ContactSchema :=
  { name := "ann", surname := "lee", email := "a@x.com", number := "111",
    bd_date := { year := 1990, month := 5, day := 10 }, additional_data := none }

/-- A second row duplicating `annC`'s (email, number, owner) key. -/
def annC2 : Contact :=
  { id := 2, name := "anna", surname := "lee", email := "a@x.com",
    number := "111", bd_date := { year := 1991, month := 6, day := 11 },
    additional_data := none, owner := 1 }

/-- A store holding two rows with the same (email, number, owner) key. -/
def dupStore : Store := { contacts := [annC, annC2], nextId := 3 }

/-- A sample contact whose birthday is October 28. -/
def octC : Contact :=
  { id := 1, name := "oct", surname := "late", email := "o@x.com",
    number := "999", bd_date := { year := 1990, month := 10, day := 28 },
    additional_data := none, owner := 1 }

/-- A sample store holding `octC`. -/
def octStore : Store := { contacts := [octC], nextId := 2 }

/-- `ValidDate` is checkable by computation. -/
instance (d : Date) : Decidable (ValidDate d) :=
  decidable_of_iff
    (1 ≤ d.month ∧ d.month ≤ 12 ∧ 1 ≤ d.day ∧ d.day ≤ daysInMonth d.year d.month)
    Iff.rfl

/-! ## Helper lemmas -/

theorem scalarOneOrNone_ok_some {l : List Contact} {c : Contact}
    (h : scalarOneOrNone l = Except.ok (some c)) : l = [c] := by
  match l with
  | [] => simp [scalarOneOrNone] at h
  | [a] => simp [scalarOneOrNone] at h; rw [h]
  | a :: b :: t => simp [scalarOneOrNone] at h

/-! ## Claims -/

/-- C1: owner isolation — a contact owned by `u1 ≠ u2` is never contained in
the result of `get_contact`, `get_contacts`, `get_existing_contact`,
`get_by_field` or `birthday_week_contacts` invoked with owner `u2`: the
owner filter is part of every select's predicate. -/
theorem owner_isolation (u1 u2 : Nat) (hne : u1 ≠ u2) (c : Contact)
    (hc : c.owner = u1) (db : Store) (limit offset cid : Nat)
    (body : ContactSchema) (v : String) (today : Date) :
    c ∉ get_contacts limit offset u2 db ∧
    get_contact cid u2 db ≠ Except.ok (some c) ∧
    get_existing_contact body u2 db ≠ Except.ok (some c) ∧
    c ∉ get_by_field v u2 db ∧
    c ∉ birthday_week_contacts today u2 db := by
  have howner : ¬ ((c.owner == u2) = true) := by
    simp [hc]
    exact hne
  refine ⟨?_, ?_, ?_, ?_, ?_⟩
  · intro hmem
    exact howner (List.mem_filter.mp
      (List.mem_of_mem_drop (List.mem_of_mem_take hmem))).2
  · intro h
    have hl := scalarOneOrNone_ok_some h
    have hmem : c ∈ db.contacts.filter (fun x => x.id == cid && x.owner == u2) := by
      rw [hl]; exact List.mem_singleton_self c
    have hp := (List.mem_filter.mp hmem).2
    simp only [Bool.and_eq_true] at hp
    exact howner hp.2
  · intro h
    have hl := scalarOneOrNone_ok_some h
    have hmem : c ∈ db.contacts.filter
        (fun x => x.email == body.email && x.number == body.number && x.owner == u2) := by
      rw [hl]; exact List.mem_singleton_self c
    have hp := (List.mem_filter.mp hmem).2
    simp only [Bool.and_eq_true] at hp
    exact howner hp.2
  · intro hmem
    have hp := (List.mem_filter.mp hmem).2
    simp only [Bool.and_eq_true] at hp
    exact howner hp.1
  · intro hmem
    have hp := (List.mem_filter.mp hmem).2
    simp only [Bool.and_eq_true] at hp
    exact howner hp.1.1

/-- Witness for C1 at a concrete store: user 2 sees none of user 1's data. -/
theorem owner_isolation_witness :
    (1 : Nat) ≠ 2 ∧ annC.owner = 1 ∧
    (annC ∉ get_contacts 10 0 2 db1 ∧
     get_contact 1 2 db1 ≠ Except.ok (some annC) ∧
     get_existing_contact
       { name := "ann", surname := "lee", email := "a@x.com", number := "111",
         bd_date := { year := 1990, month := 5, day := 10 },
         additional_data := none } 2 db1 ≠ Except.ok (some annC) ∧
     annC ∉ get_by_field "ANN" 2 db1 ∧
     annC ∉ birthday_week_contacts { year := 2026, month := 5, day := 8 } 2 db1) :=
  ⟨by decide, by decide,
   owner_isolation 1 2 (by decide) annC (by decide) db1 10 0 1
     { name := "ann", surname := "lee", email := "a@x.com", number := "111",
       bd_date := { year := 1990, month := 5, day := 10 },
       additional_data := none } "ANN" { year := 2026, month := 5, day := 8 }⟩

/-- C2: birthday-query semantics — `birthday_week_contacts` returns exactly
the owner's contacts whose `bd_date` month lies in
`[today.month, (today+7d).month]` AND whose day lies in
`[today.day, (today+7d).day]`, the two numeric range checks evaluated
independently, with the year ignored. -/
theorem birthday_week_spec (today : Date) (u : Nat) (db : Store) (c : Contact) :
    c ∈ birthday_week_contacts today u db ↔
      c ∈ db.contacts ∧ c.owner = u ∧
      (today.month ≤ c.bd_date.month ∧ c.bd_date.month ≤ (addDays today 7).month) ∧
      (today.day ≤ c.bd_date.day ∧ c.bd_date.day ≤ (addDays today 7).day) := by
  simp [birthday_week_contacts, List.mem_filter, sqlBetween, and_assoc]

/-- C4: search asymmetry — `get_by_field` returns exactly the owner's
contacts whose name or surname equals the value case-insensitively or whose
email equals it case-sensitively; concretely, searching "JOHN" finds a
contact named "john" but searching "JOHN@X.COM" misses email "john@x.com". -/
theorem search_asymmetry :
    (∀ (v : String) (u : Nat) (db : Store) (c : Contact),
      c ∈ get_by_field v u db ↔
        c ∈ db.contacts ∧ c.owner = u ∧
        (strLower c.name = strLower v ∨ strLower c.surname = strLower v ∨
          c.email = v)) ∧
    (let john : Contact :=
      { id := 1, name := "john", surname := "doe", email := "john@x.com",
        number := "1", bd_date := { year := 1990, month := 1, day := 2 },
        additional_data := none, owner := 1 }
     john ∈ get_by_field "JOHN" 1 { contacts := [john], nextId := 2 } ∧
     john ∉ get_by_field "JOHN@X.COM" 1 { contacts := [john], nextId := 2 }) := by
  constructor
  · intro v u db c
    simp [get_by_field, List.mem_filter, and_assoc, or_assoc]
  · exact ⟨by decide, by decide⟩

/-- C8: list semantics — `get_contacts` returns the owner's contacts in
insertion order, skipping the first `offset` and returning at most `limit`;
an empty match yields the empty sequence, not an error. -/
theorem list_semantics (limit offset u : Nat) (db : Store) :
    (∀ i : Nat, (get_contacts limit offset u db)[i]? =
      if i < limit then (db.contacts.filter (fun c => c.owner == u))[offset + i]?
      else none) ∧
    (get_contacts limit offset u db).length =
      min limit ((db.contacts.filter (fun c => c.owner == u)).length - offset) ∧
    (db.contacts.filter (fun c => c.owner == u) = [] →
      get_contacts limit offset u db = []) := by
  refine ⟨?_, ?_, ?_⟩
  · intro i
    simp [get_contacts, List.getElem?_take, List.getElem?_drop]
  · simp [get_contacts]
  · intro h
    simp [get_contacts, h]

/-- Witness for C8: a user with no contacts gets the empty list. -/
theorem list_semantics_witness :
    db1.contacts.filter (fun c => c.owner == 2) = [] ∧
    get_contacts 10 0 2 db1 = [] :=
  ⟨by decide, (list_semantics 10 0 2 db1).2.2 (by decide)⟩

/-- C5: create/getById round-trip — on a store whose existing ids are below
the next autoincrement id and which holds no (email, number, owner)
duplicate of the body, `create_contact` inserts a row carrying exactly the
body's six fields and the owner under the generated id `db.nextId`, and
`get_contact` on that id retrieves precisely the created row. -/
theorem create_get_roundtrip (body : ContactSchema) (u : Nat) (db : Store)
    (hwf : ∀ c ∈ db.contacts, c.id < db.nextId)
    (hnodup : ∀ c ∈ db.contacts,
      ¬(c.email = body.email ∧ c.number = body.number ∧ c.owner = u)) :
    get_contact (create_contact body u db).1.id u (create_contact body u db).2 =
      Except.ok (some (create_contact body u db).1) ∧
    (create_contact body u db).1.id = db.nextId ∧
    (create_contact body u db).1.name = body.name ∧
    (create_contact body u db).1.surname = body.surname ∧
    (create_contact body u db).1.email = body.email ∧
    (create_contact body u db).1.number = body.number ∧
    (create_contact body u db).1.bd_date = body.bd_date ∧
    (create_contact body u db).1.additional_data = body.additional_data ∧
    (create_contact body u db).1.owner = u := by
  have hfl : db.contacts.filter (fun x => x.id == db.nextId && x.owner == u) = [] := by
    rw [List.filter_eq_nil_iff]
    intro a ha
    have hlt := hwf a ha
    simp only [Bool.and_eq_true, beq_iff_eq, not_and]
    intro hid
    omega
  refine ⟨?_, rfl, rfl, rfl, rfl, rfl, rfl, rfl, rfl⟩
  simp [get_contact, create_contact, List.filter_append, hfl, scalarOneOrNone]

/-- Witness for C5 at a concrete store. -/
theorem create_get_roundtrip_witness :
    (∀ c ∈ db1.contacts, c.id < db1.nextId) ∧
    (∀ c ∈ db1.contacts,
      ¬(c.email = bodyB.email ∧ c.number = bodyB.number ∧ c.owner = 1)) ∧
    get_contact (create_contact bodyB 1 db1).1.id 1 (create_contact bodyB 1 db1).2 =
      Except.ok (some (create_contact bodyB 1 db1).1) ∧
    (create_contact bodyB 1 db1).1.id = db1.nextId :=
  ⟨by decide, by decide,
   (create_get_roundtrip bodyB 1 db1 (by decide) (by decide)).1,
   (create_get_roundtrip bodyB 1 db1 (by decide) (by decide)).2.1⟩

/-- C6: update on an absent (id, owner) pair is a no-op — the repository
returns `None` with the store unchanged, and the route maps it to 404. -/
theorem update_absent (cid : Nat) (body : ContactSchema) (u : Nat) (db : Store)
    (h : ∀ c ∈ db.contacts, ¬(c.id = cid ∧ c.owner = u)) :
    update_contact cid body u db = Except.ok (none, db) ∧
    routeUpdateContact cid body u db = (RouteResult.httpErr 404 "NOT FOUND", db) := by
  have hfl : db.contacts.filter (fun c => c.id == cid && c.owner == u) = [] := by
    rw [List.filter_eq_nil_iff]
    intro a ha
    simpa using h a ha
  constructor
  · simp [update_contact, hfl, scalarOneOrNone]
  · simp [routeUpdateContact, update_contact, hfl, scalarOneOrNone]

/-- Witness for C6: updating id 9 (absent) leaves the sample store as is. -/
theorem update_absent_witness :
    (∀ c ∈ db1.contacts, ¬(c.id = 9 ∧ c.owner = 1)) ∧
    update_contact 9 bodyB 1 db1 = Except.ok (none, db1) ∧
    routeUpdateContact 9 bodyB 1 db1 = (RouteResult.httpErr 404 "NOT FOUND", db1) :=
  ⟨by decide, (update_absent 9 bodyB 1 db1 (by decide)).1,
   (update_absent 9 bodyB 1 db1 (by decide)).2⟩

/-- A map that fixes every element of a list leaves it unchanged. -/
theorem map_eq_self_of (l : List Contact) (f : Contact → Contact)
    (h : ∀ a ∈ l, f a = a) : l.map f = l := by
  conv_rhs => rw [show l = l.map id from (List.map_id l).symm]
  exact List.map_congr_left h

/-- C7: update frame condition — when the store splits around the unique
row matching (id, owner), `update_contact` overwrites exactly the six
mutable fields of that row with the body's values, keeps its id and owner,
returns the updated entity, and leaves every other row (and the id
counter) unchanged. -/
theorem update_frame (cid : Nat) (body : ContactSchema) (u : Nat) (db : Store)
    (l1 l2 : List Contact) (c0 : Contact)
    (hsplit : db.contacts = l1 ++ c0 :: l2)
    (hid : c0.id = cid) (hown : c0.owner = u)
    (h1 : ∀ c ∈ l1, ¬(c.id = cid ∧ c.owner = u))
    (h2 : ∀ c ∈ l2, ¬(c.id = cid ∧ c.owner = u)) :
    update_contact cid body u db =
      Except.ok (some (applyFields body c0),
        { contacts := l1 ++ applyFields body c0 :: l2, nextId := db.nextId }) ∧
    (applyFields body c0).id = c0.id ∧
    (applyFields body c0).owner = c0.owner ∧
    (applyFields body c0).name = body.name ∧
    (applyFields body c0).surname = body.surname ∧
    (applyFields body c0).email = body.email ∧
    (applyFields body c0).number = body.number ∧
    (applyFields body c0).bd_date = body.bd_date ∧
    (applyFields body c0).additional_data = body.additional_data := by
  have hp0 : (c0.id == cid && c0.owner == u) = true := by
    simp [hid, hown]
  have hfl1 : l1.filter (fun c => c.id == cid && c.owner == u) = [] := by
    rw [List.filter_eq_nil_iff]
    intro a ha
    simpa using h1 a ha
  have hfl2 : l2.filter (fun c => c.id == cid && c.owner == u) = [] := by
    rw [List.filter_eq_nil_iff]
    intro a ha
    simpa using h2 a ha
  have hfl : db.contacts.filter (fun c => c.id == cid && c.owner == u) = [c0] := by
    rw [hsplit, List.filter_append, List.filter_cons, hfl1, hfl2, hp0]
    rfl
  have hmap : db.contacts.map
      (fun x => if x.id = cid ∧ x.owner = u then applyFields body c0 else x) =
      l1 ++ applyFields body c0 :: l2 := by
    rw [hsplit, List.map_append, List.map_cons]
    rw [map_eq_self_of l1 _ (fun a ha => if_neg (h1 a ha))]
    rw [map_eq_self_of l2 _ (fun a ha => if_neg (h2 a ha))]
    rw [if_pos ⟨hid, hown⟩]
  refine ⟨?_, rfl, rfl, rfl, rfl, rfl, rfl, rfl, rfl⟩
  simp [update_contact, hfl, scalarOneOrNone, hmap]

/-- Witness for C7: updating the sample one-row store rewrites the row's
six fields in place. -/
theorem update_frame_witness :
    db1.contacts = [] ++ annC :: [] ∧ annC.id = 1 ∧ annC.owner = 1 ∧
    update_contact 1 bodyB 1 db1 =
      Except.ok (some (applyFields bodyB annC),
        { contacts := [applyFields bodyB annC], nextId := 2 }) ∧
    (applyFields bodyB annC).id = annC.id ∧
    (applyFields bodyB annC).name = bodyB.name :=
  ⟨by decide, by decide, by decide,
   (update_frame 1 bodyB 1 db1 [] [] annC (by decide) (by decide) (by decide)
      (by decide) (by decide)).1,
   (update_frame 1 bodyB 1 db1 [] [] annC (by decide) (by decide) (by decide)
      (by decide) (by decide)).2.1,
   (update_frame 1 bodyB 1 db1 [] [] annC (by decide) (by decide) (by decide)
      (by decide) (by decide)).2.2.2.1⟩


/-- Counterexample to C3 as stated: in a store where two rows carry the
requested (email, number, owner) key — so a duplicate certainly exists —
the create endpoint does not answer 400 Conflict: the duplicate lookup's
`scalar_one_or_none` raises `MultipleResultsFound`, which surfaces as a
store error (5xx). No row is inserted. -/
theorem create_conflict_cex :
    (dupStore.contacts.filter (fun c =>
      c.email == bodyA.email && c.number == bodyA.number && c.owner == 1)).length = 2 ∧
    routeCreateContact bodyA 1 dupStore =
      (RouteResult.storeErr
        "Multiple rows were found when exactly one or none was required", dupStore) ∧
    (routeCreateContact bodyA 1 dupStore).1 ≠
      RouteResult.httpErr 400 "Contact with this number or email already exists" :=
  ⟨by decide, by decide, by decide⟩

/-- C3 (amended): when exactly one contact with the same
(email, number, owner) key exists, create answers 400 Conflict and the
store is unchanged; when none exists, exactly one new row is appended and
returned with the generated id. (With two or more duplicate rows the
lookup itself errors — see the counterexample — still without inserting.) -/
theorem create_conflict_atomic (body : ContactSchema) (u : Nat) (db : Store) :
    ((db.contacts.filter (fun c =>
        c.email == body.email && c.number == body.number && c.owner == u)).length = 1 →
      routeCreateContact body u db =
        (RouteResult.httpErr 400 "Contact with this number or email already exists", db)) ∧
    (db.contacts.filter (fun c =>
        c.email == body.email && c.number == body.number && c.owner == u) = [] →
      routeCreateContact body u db =
        (RouteResult.ok (create_contact body u db).1, (create_contact body u db).2) ∧
      (create_contact body u db).2.contacts =
        db.contacts ++ [(create_contact body u db).1] ∧
      (create_contact body u db).1.id = db.nextId) := by
  constructor
  · intro h
    obtain ⟨a, ha⟩ := List.length_eq_one.mp h
    simp [routeCreateContact, get_existing_contact, ha, scalarOneOrNone]
  · intro h
    refine ⟨?_, rfl, rfl⟩
    simp [routeCreateContact, get_existing_contact, h, scalarOneOrNone]

/-- Witness for the amended C3: one duplicate in the sample store gives
400 with the store untouched; a fresh key on the empty store inserts. -/
theorem create_conflict_atomic_witness :
    (db1.contacts.filter (fun c =>
      c.email == bodyA.email && c.number == bodyA.number && c.owner == 1)).length = 1 ∧
    routeCreateContact bodyA 1 db1 =
      (RouteResult.httpErr 400 "Contact with this number or email already exists", db1) :=
  ⟨by decide, (create_conflict_atomic bodyA 1 db1).1 (by decide)⟩

/-- C10: when two or more rows share the requested (email, number, owner)
key, `get_existing_contact` does not return 'a contact or absent' — its
`scalar_one_or_none` raises `MultipleResultsFound`, and the create
endpoint's error branch is reached with a non-Conflict failure. -/
theorem dup_lookup_error (body : ContactSchema) (u : Nat) (db : Store)
    (h : 2 ≤ (db.contacts.filter (fun c =>
      c.email == body.email && c.number == body.number && c.owner == u)).length) :
    get_existing_contact body u db =
      Except.error "Multiple rows were found when exactly one or none was required" ∧
    routeCreateContact body u db =
      (RouteResult.storeErr
        "Multiple rows were found when exactly one or none was required", db) := by
  rcases hll : db.contacts.filter (fun c =>
      c.email == body.email && c.number == body.number && c.owner == u) with _ | ⟨a, t⟩
  · rw [hll] at h
    simp at h
  · rcases ht : t with _ | ⟨b, t2⟩
    · rw [hll, ht] at h
      simp at h
    · subst ht
      constructor
      · unfold get_existing_contact
        rw [hll]
        rfl
      · unfold routeCreateContact get_existing_contact
        rw [hll]
        rfl

/-- Witness for C10 on the two-duplicate store. -/
theorem dup_lookup_error_witness :
    2 ≤ (dupStore.contacts.filter (fun c =>
      c.email == bodyA.email && c.number == bodyA.number && c.owner == 1)).length ∧
    get_existing_contact bodyA 1 dupStore =
      Except.error "Multiple rows were found when exactly one or none was required" :=
  ⟨by decide, (dup_lookup_error bodyA 1 dupStore (by decide)).1⟩

/-- Every Gregorian month has at least 28 days. -/
theorem daysInMonth_ge (y m : Nat) : 28 ≤ daysInMonth y m := by
  unfold daysInMonth
  split
  · split <;> omega
  · split <;> omega

/-- Unfolding one step of `addDays`. -/
theorem addDays_succ (d : Date) (n : Nat) :
    addDays d (n + 1) = nextDay (addDays d n) := rfl

/-- `addDays` distributes over addition of day counts. -/
theorem addDays_add (d : Date) (m n : Nat) :
    addDays d (m + n) = addDays (addDays d m) n := by
  induction n with
  | zero => rfl
  | succ k ih => rw [← Nat.add_assoc, addDays_succ, addDays_succ, ih]

/-- `nextDay` inside the month just increments the day. -/
theorem nextDay_of_lt (d : Date) (h : d.day < daysInMonth d.year d.month) :
    nextDay d = { d with day := d.day + 1 } := by
  unfold nextDay
  rw [if_pos h]

/-- `nextDay` at (or past) the month's last day lands on day 1. -/
theorem nextDay_day_of_ge (d : Date) (h : daysInMonth d.year d.month ≤ d.day) :
    (nextDay d).day = 1 := by
  unfold nextDay
  rw [if_neg (by omega)]
  split <;> rfl

/-- Adding days that stay inside the month only moves the day field. -/
theorem addDays_within (d : Date) (n : Nat)
    (h : d.day + n ≤ daysInMonth d.year d.month) :
    addDays d n = { d with day := d.day + n } := by
  induction n with
  | zero => rfl
  | succ k ih =>
      rw [addDays_succ, ih (by omega),
        nextDay_of_lt { d with day := d.day + k }
          (show d.day + k < daysInMonth d.year d.month by omega)]
      rfl

/-- Whenever `today + 7 days` lies in a different month than `today`, its
day-of-month is strictly smaller than `today`'s: the week crossed a month
boundary, so `today.day` is within 6 of the month's end (≥ 22) while the
new day-of-month is at most 7. -/
theorem addDays7_day_lt (d : Date) (hv : ValidDate d)
    (hm : (addDays d 7).month ≠ d.month) : (addDays d 7).day < d.day := by
  obtain ⟨hm1, hm2, hd1, hd2⟩ := hv
  by_cases hc : d.day + 7 ≤ daysInMonth d.year d.month
  · exact absurd (by rw [addDays_within d 7 hc]) hm
  · push_neg at hc
    have hdim : 28 ≤ daysInMonth d.year d.month := daysInMonth_ge d.year d.month
    have hsplit7 : 7 = (daysInMonth d.year d.month - d.day + 1) +
        (6 - (daysInMonth d.year d.month - d.day)) := by omega
    rw [hsplit7, addDays_add, addDays_succ,
      addDays_within d (daysInMonth d.year d.month - d.day) (by omega)]
    have hde : ({ d with day := d.day + (daysInMonth d.year d.month - d.day) } : Date)
        = { d with day := daysInMonth d.year d.month } := by
      have hsum : d.day + (daysInMonth d.year d.month - d.day) =
          daysInMonth d.year d.month := by omega
      rw [hsum]
    rw [hde]
    set e := nextDay { d with day := daysInMonth d.year d.month } with he
    have h3 : e.day = 1 := by
      rw [he]
      exact nextDay_day_of_ge _ (by simp)
    have hge := daysInMonth_ge e.year e.month
    rw [addDays_within e (6 - (daysInMonth d.year d.month - d.day)) (by omega)]
    show e.day + (6 - (daysInMonth d.year d.month - d.day)) < d.day
    omega

/-- C9: month-boundary emptiness — whenever `today` and `today + 7 days`
fall in different calendar months (the December-to-January turn included),
`birthday_week_contacts` returns the empty list for every owner and store,
even for a contact whose birthday is today, because the day
`BETWEEN(today.day, next.day)` range (or, across New Year, the month
range) is numerically empty. -/
theorem birthday_month_boundary (today : Date) (hv : ValidDate today)
    (hm : (addDays today 7).month ≠ today.month) (u : Nat) (db : Store) :
    birthday_week_contacts today u db = [] := by
  have hlt := addDays7_day_lt today hv hm
  simp only [birthday_week_contacts]
  rw [List.filter_eq_nil_iff]
  intro c hc
  simp only [Bool.and_eq_true, sqlBetween, decide_eq_true_eq, beq_iff_eq]
  rintro ⟨⟨h1, h2⟩, h3, h4⟩
  omega


/-- Witness for C9: on 2026-10-28 the window ends 2026-11-04, and the query
finds nobody — not even the contact born on October 28. -/
theorem birthday_month_boundary_witness :
    ValidDate { year := 2026, month := 10, day := 28 } ∧
    (addDays { year := 2026, month := 10, day := 28 } 7).month ≠ 10 ∧
    birthday_week_contacts { year := 2026, month := 10, day := 28 } 1 octStore = [] :=
  ⟨by decide, by decide,
   birthday_month_boundary { year := 2026, month := 10, day := 28 }
     (by decide) (by decide) 1 octStore⟩
